import Mathlib

/-!
Verification model of `streamlit_app.py` (European Sustainable Agriculture
Advisor).  The program is a data-aggregation core: a 24-hour in-memory cache
(`EuropeanAgriDataService.cache`), four fetch-with-fallback source fetchers
(`get_fsdn_data`, `get_fast_platform_data`, `get_market_prices`,
`get_weather_data`), an aggregation step (the button handler in `main`), and a
prompt builder plus text-generation call (`get_recommendations`).

Modelling conventions:
* Time is `Nat` seconds; `datetime.now()` becomes an explicit `now : Time`
  argument and `timedelta(hours=24)` becomes `24 * 60 * 60` seconds.
* JSON payloads (Python dicts) are `JsonVal`; `dict.get(k, d)` is
  `JsonVal.getD`.
* The outcome of one remote interaction (`requests.get` followed by
  `response.json()`) is a `RemoteOutcome` parameter: the request may raise
  (network error), or yield a response with an HTTP status code and a body
  that either parses as JSON or makes `response.json()` raise.  The source
  never inspects the status code; it is carried so that theorems can speak
  about non-success responses.
* The numeric coordinate literals of the region catalog are exact decimals,
  modelled as mantissa/exponent pairs (`Coord`); `decStr` reproduces Python's
  `str()` rendering of these literals, which is what the cache-key f-string
  interpolates.
* The text-generation call is a `GenOutcome` parameter (it either raises or
  returns a completion string).
-/

/-- Time instants and durations, in seconds. -/
abbrev Time := Nat

/-- JSON-shaped data, standing for the Python dicts the program passes around. -/
inductive JsonVal where
  | null : JsonVal
  | num (n : Int) : JsonVal
  | str (s : String) : JsonVal
  | arr (elems : List JsonVal) : JsonVal
  | obj (fields : List (String × JsonVal)) : JsonVal

/-- Python's `dict.get(key, dflt)`: the value under `key` when present, else
`dflt`.  On a non-dict value Python would raise; the program only applies
`.get` to dicts, and we return `dflt` in that unused case. -/
def JsonVal.getD (j : JsonVal) (key : String) (dflt : JsonVal) : JsonVal :=
  match j with
  | .obj fields =>
    match fields.find? (fun p => p.1 == key) with
    | some p => p.2
    | none => dflt
  | _ => dflt

/-- An exact decimal number `mant / 10 ^ exp`, modelling the float literals of
the region catalog (all of which are exact short decimals). -/
structure Coord where
  mant : Int
  exp : Nat
deriving DecidableEq

/-- Left-pad a digit string with zeros to width `w`. -/
def padZeros (s : String) (w : Nat) : String :=
  if s.length < w then String.mk (List.replicate (w - s.length) '0') ++ s else s

/-- Python's `str()` of the decimal `c`: sign, integer part, dot, fractional
digits (e.g. mantissa 437711 with exponent 4 renders as "43.7711"). -/
def decStr (c : Coord) : String :=
  let n := c.mant.natAbs
  let p := 10 ^ c.exp
  let sign := if c.mant < 0 then "-" else ""
  if c.exp = 0 then sign ++ toString n
  else sign ++ toString (n / p) ++ "." ++ padZeros (toString (n % p)) c.exp

/-- One entry of `EuropeanAgriDataService.cache`: the dict with a "timestamp"
and a "data" field written by `_cache_data`. -/
structure CacheEntry where
  timestamp : Time
  data : JsonVal

/-- The service cache `self.cache`, a string-keyed dict.  It is modelled as an
association list where the most recent binding of a key shadows older ones,
matching dict overwrite observationally. -/
abbrev Cache := List (String × CacheEntry)

/-- Dict lookup: the newest binding of `key`, or `none` when absent. -/
def cacheLookup : Cache → String → Option CacheEntry
  | [], _ => none
  | (k, e) :: rest, key => if k == key then some e else cacheLookup rest key

/-- `self.cache_duration = timedelta(hours=24)`, in seconds. -/
def cacheDuration : Time := 24 * 60 * 60

/-- `EuropeanAgriDataService._cache_data` (src/streamlit_app.py lines 31-35):
store `data` under `key` with the current timestamp, overwriting any older
binding. -/
def cache_data (c : Cache) (key : String) (now : Time) (data : JsonVal) : Cache :=
  (key, { timestamp := now, data := data }) :: c

/-- `EuropeanAgriDataService._is_cache_valid` (lines 37-39): the key is
present and `datetime.now() - timestamp < cache_duration` (strict). -/
def is_cache_valid (c : Cache) (now : Time) (key : String) : Bool :=
  match cacheLookup c key with
  | none => false
  | some e => decide (now - e.timestamp < cacheDuration)

/-- The cached payload `self.cache[key]["data"]`.  The program reads it only
behind an `_is_cache_valid` guard, so the absent case (where Python would
raise `KeyError`) is unreachable; it returns `JsonVal.null` here. -/
def cacheGet (c : Cache) (key : String) : JsonVal :=
  match cacheLookup c key with
  | some e => e.data
  | none => JsonVal.null

/-- The outcome of one remote interaction, `requests.get(...)` followed by
`response.json()`:
* `netError`: `requests.get` itself raised (connection failure etc.);
* `response status (.error msg)`: a response arrived but its body is not
  valid JSON, so `response.json()` raised;
* `response status (.ok data)`: a response arrived and its body parsed as
  JSON -- whatever the HTTP `status` was, since the source never checks it. -/
inductive RemoteOutcome where
  | netError (msg : String)
  | response (status : Nat) (body : Except String JsonVal)

/-- Whether the remote interaction raised inside the fetcher's `try` block. -/
def RemoteOutcome.isFailure : RemoteOutcome → Bool
  | .netError _ => true
  | .response _ (.error _) => true
  | .response _ (.ok _) => false

/-- What one fetcher call produces: the returned payload, the cache state it
leaves behind, and how many live remote calls it issued (0 on a cache hit,
1 otherwise). -/
structure FetchResult where
  value : JsonVal
  cache : Cache
  liveCalls : Nat

/-- The fetch-with-fallback block that all four fetchers repeat verbatim
(src/streamlit_app.py lines 41-106), parameterized by the cache key and the
fallback of the `except` branch:
1. on `_is_cache_valid(key)`, return the cached payload, no live call;
2. otherwise issue the remote call; if it raises (network error or a body
   that `response.json()` cannot parse), return the fallback built from the
   caught exception's message, leaving the cache untouched;
3. on a parsed body, `_cache_data(key, data)` and return `data` -- the HTTP
   status code is never consulted. -/
def fetchWith (key : String) (fallback : String → JsonVal) (c : Cache)
    (now : Time) (o : RemoteOutcome) : FetchResult :=
  if is_cache_valid c now key then
    { value := cacheGet c key, cache := c, liveCalls := 0 }
  else
    match o with
    | .netError msg => { value := fallback msg, cache := c, liveCalls := 1 }
    | .response _status body =>
      match body with
      | .error msg => { value := fallback msg, cache := c, liveCalls := 1 }
      | .ok data =>
        { value := data, cache := cache_data c key now data, liveCalls := 1 }

/-- Static fallback of `get_fsdn_data` (lines 52-56): sustainability metrics
nested under the "sustainability_metrics" key. -/
def fsdnFallback : JsonVal :=
  .obj [("sustainability_metrics", .obj
    [("soil_health", .str "medium"),
     ("water_efficiency", .str "high"),
     ("biodiversity", .str "medium")])]

/-- Static fallback of `get_fast_platform_data` (lines 71-75). -/
def fastFallback : JsonVal :=
  .obj [("soil_nutrients", .str "moderate"),
        ("recommended_practices", .arr [.str "crop_rotation", .str "minimum_tillage"])]

/-- Static fallback of `get_market_prices` (lines 87-91). -/
def pricesFallback : JsonVal :=
  .obj [("Wheat", .obj [("price", .num 250), ("unit", .str "€/tonne")]),
        ("Barley", .obj [("price", .num 220), ("unit", .str "€/tonne")])]

/-- Fallback of `get_weather_data` (line 106): null temp and humidity plus the
caught exception's message under "error". -/
def weatherFallback (msg : String) : JsonVal :=
  .obj [("temp", .null), ("humidity", .null), ("error", .str msg)]

/-- `EuropeanAgriDataService.get_fsdn_data` (lines 41-56); cache key
`fsdn_` followed by the region. -/
def get_fsdn_data (c : Cache) (now : Time) (region : String)
    (o : RemoteOutcome) : FetchResult :=
  fetchWith ("fsdn_" ++ region) (fun _ => fsdnFallback) c now o

/-- `EuropeanAgriDataService.get_fast_platform_data` (lines 58-75); cache key
`fast_` followed by the region. -/
def get_fast_platform_data (c : Cache) (now : Time) (region : String)
    (o : RemoteOutcome) : FetchResult :=
  fetchWith ("fast_" ++ region) (fun _ => fastFallback) c now o

/-- `EuropeanAgriDataService.get_market_prices` (lines 77-91); cache key
`prices`, no request parameters. -/
def get_market_prices (c : Cache) (now : Time) (o : RemoteOutcome) : FetchResult :=
  fetchWith "prices" (fun _ => pricesFallback) c now o

/-- `EuropeanAgriDataService.get_weather_data` (lines 93-106); cache key
`weather_` followed by the interpolations of `lat` and `lon` exactly as
passed.  The weather `except` branch builds its fallback from the caught
exception. -/
def get_weather_data (c : Cache) (now : Time) (lat lon : Coord)
    (o : RemoteOutcome) : FetchResult :=
  fetchWith ("weather_" ++ decStr lat ++ "_" ++ decStr lon) weatherFallback c now o

/-- The four external data sources. -/
inductive Source where
  | sustainability
  | practices
  | marketPrices
  | weather
deriving DecidableEq

/-- The request parameters a fetcher can draw on: the region identifier and
the coordinates.  Each source uses only its own part. -/
structure FetchParams where
  region : String
  lat : Coord
  lon : Coord

/-- The cache key each fetcher computes from its parameters. -/
def sourceKey : Source → FetchParams → String
  | .sustainability, p => "fsdn_" ++ p.region
  | .practices, p => "fast_" ++ p.region
  | .marketPrices, _ => "prices"
  | .weather, p => "weather_" ++ decStr p.lat ++ "_" ++ decStr p.lon

/-- The fallback value each fetcher returns from its `except` branch, as a
function of the caught exception's message (only the weather fallback uses
the message). -/
def sourceFallback : Source → String → JsonVal
  | .sustainability => fun _ => fsdnFallback
  | .practices => fun _ => fastFallback
  | .marketPrices => fun _ => pricesFallback
  | .weather => fun msg => weatherFallback msg

/-- Dispatch to the four concrete fetchers by source. -/
def fetchS : Source → Cache → Time → FetchParams → RemoteOutcome → FetchResult
  | .sustainability, c, now, p, o => get_fsdn_data c now p.region o
  | .practices, c, now, p, o => get_fast_platform_data c now p.region o
  | .marketPrices, c, now, _, o => get_market_prices c now o
  | .weather, c, now, p, o => get_weather_data c now p.lat p.lon o

/-- The value a live fetch attempt yields: the parsed body on success, the
fallback built from the exception message otherwise. -/
def liveOr (o : RemoteOutcome) (fallback : String → JsonVal) : JsonVal :=
  match o with
  | .netError msg => fallback msg
  | .response _ (.error msg) => fallback msg
  | .response _ (.ok data) => data

/-- One record of the region catalog in `main` (lines 145-156). -/
structure RegionData where
  name : String
  coordinates : Coord × Coord
  soil_type : String

/-- The "Tuscany" catalog entry: coordinates (43.7711, 11.2486). -/
def tuscanyRegion : RegionData :=
  { name := "Tuscany, Italy"
  , coordinates := (⟨437711, 4⟩, ⟨112486, 4⟩)
  , soil_type := "Clay-Limestone" }

/-- The "Bavaria" catalog entry: coordinates (48.7904, 11.4979). -/
def bavariaRegion : RegionData :=
  { name := "Bavaria, Germany"
  , coordinates := (⟨487904, 4⟩, ⟨114979, 4⟩)
  , soil_type := "Loess" }

/-- The region catalog `regions` of `main`. -/
def regions : List (String × RegionData) :=
  [("Tuscany", tuscanyRegion), ("Bavaria", bavariaRegion)]

/-- The environment's answer to each source's remote call for one request.
`fast` is present because the practices endpoint exists and could answer;
whether the program ever asks is the program's behavior. -/
structure WorldOutcomes where
  fsdn : RemoteOutcome
  fast : RemoteOutcome
  prices : RemoteOutcome
  weather : RemoteOutcome

/-- The data handed to `get_recommendations` by the button handler. -/
structure Snapshot where
  sustainability_data : JsonVal
  market_data : JsonVal
  weather_data : JsonVal

/-- The aggregation step of `main` (lines 161-175): construct a fresh
`EuropeanAgriDataService` (empty cache), then run `get_fsdn_data`,
`get_market_prices` and `get_weather_data` in sequence on the selected
region, threading the service's cache; `get_fast_platform_data` is never
called.  Returns the snapshot passed on to `get_recommendations` together
with the service's final cache. -/
def aggregate (region_name : String) (region_data : RegionData) (now : Time)
    (w : WorldOutcomes) : Snapshot × Cache :=
  let c0 : Cache := []
  let r1 := get_fsdn_data c0 now region_name w.fsdn
  let r2 := get_market_prices r1.cache now w.prices
  let r3 := get_weather_data r2.cache now
    region_data.coordinates.1 region_data.coordinates.2 w.weather
  ({ sustainability_data := r1.value
   , market_data := r2.value
   , weather_data := r3.value }, r3.cache)

/-- Python `str()` of the values interpolated into the prompt f-string.  The
interpolated expressions only ever produce `None`, numbers or strings in the
scenarios modelled; dict and list renderings are not depended on by any
theorem. -/
def pyStr : JsonVal → String
  | .null => "None"
  | .num n => toString n
  | .str s => s
  | .arr _ => "<list>"
  | .obj _ => "<dict>"

/-- The prompt f-string of `get_recommendations` (lines 111-129), modelled as
its interpolated fields: each field is the rendering of the corresponding
interpolated expression; the market section interpolates
`json.dumps(market_data, indent=2)`, carried here as the raw value. -/
structure Prompt where
  region : String
  temp : String
  humidity : String
  soil_type : String
  soil_health : String
  water_efficiency : String
  biodiversity : String
  market_conditions : JsonVal

/-- Build the prompt fields exactly as the f-string does: temperature and
humidity come from `weather_data.get('main', dict()).get(..., 'Unknown')`,
the sustainability levels from `sustainability_data.get(..., 'Unknown')`
read at top level. -/
def build_prompt (region_data : RegionData)
    (sustainability_data market_data weather_data : JsonVal) : Prompt :=
  { region := region_data.name
  , temp := pyStr ((weather_data.getD "main" (.obj [])).getD "temp" (.str "Unknown"))
  , humidity := pyStr ((weather_data.getD "main" (.obj [])).getD "humidity" (.str "Unknown"))
  , soil_type := region_data.soil_type
  , soil_health := pyStr (sustainability_data.getD "soil_health" (.str "Unknown"))
  , water_efficiency := pyStr (sustainability_data.getD "water_efficiency" (.str "Unknown"))
  , biodiversity := pyStr (sustainability_data.getD "biodiversity" (.str "Unknown"))
  , market_conditions := market_data }

/-- The outcome of the single `client.chat.completions.create` call:
either it raised, or it returned a completion whose extracted content is
`content`. -/
inductive GenOutcome where
  | genError (msg : String)
  | genSuccess (content : String)

/-- `get_recommendations` (lines 108-140): build the prompt, issue exactly
one generation call, return its content on success and `None` (here `none`)
when the call raised -- no retry. -/
def get_recommendations (region_data : RegionData)
    (sustainability_data market_data weather_data : JsonVal)
    (g : GenOutcome) : Option String :=
  let _prompt := build_prompt region_data sustainability_data market_data weather_data
  match g with
  | .genError _ => none
  | .genSuccess content => some content

/-- Modelled from the spec: the spec's CacheKey section says the weather key
uses a "rounded lat/lon pair" but gives no rounding precision; this rounds a
decimal coordinate to `dp` decimal places, half away from zero for the
non-negative coordinates involved.  The source itself applies no rounding. -/
def roundTo (dp : Nat) (c : Coord) : Int :=
  if c.exp ≤ dp then c.mant * 10 ^ (dp - c.exp)
  else (c.mant + (10 ^ (c.exp - dp)) / 2) / 10 ^ (c.exp - dp)

/-! Helper lemmas about the cache and the shared fetch block. -/

theorem cacheLookup_cache_data_self (c : Cache) (k : String) (t : Time) (d : JsonVal) :
    cacheLookup (cache_data c k t d) k = some { timestamp := t, data := d } := by
  simp [cache_data, cacheLookup]

theorem cacheLookup_cache_data_of_ne (c : Cache) (k k' : String) (t : Time)
    (d : JsonVal) (h : k ≠ k') :
    cacheLookup (cache_data c k t d) k' = cacheLookup c k' := by
  simp only [cache_data, cacheLookup]
  rw [if_neg (by simpa using h)]

theorem is_cache_valid_of_lookup_none (c : Cache) (now : Time) (k : String)
    (h : cacheLookup c k = none) : is_cache_valid c now k = false := by
  simp [is_cache_valid, h]

theorem is_cache_valid_nil (now : Time) (k : String) :
    is_cache_valid [] now k = false := rfl

theorem is_cache_valid_lookup_some (c : Cache) (now : Time) (k : String)
    (e : CacheEntry) (hl : cacheLookup c k = some e) :
    is_cache_valid c now k = decide (now - e.timestamp < cacheDuration) := by
  unfold is_cache_valid
  rw [hl]

theorem is_cache_valid_stale_mono (c : Cache) (k : String) (t₁ t₂ : Time)
    (h₁₂ : t₁ ≤ t₂) (h : is_cache_valid c t₁ k = false) :
    is_cache_valid c t₂ k = false := by
  cases hl : cacheLookup c k with
  | none => exact is_cache_valid_of_lookup_none c t₂ k hl
  | some e =>
    rw [is_cache_valid_lookup_some c t₁ k e hl] at h
    rw [is_cache_valid_lookup_some c t₂ k e hl]
    simp only [decide_eq_false_iff_not, Nat.not_lt] at h ⊢
    exact le_trans h (Nat.sub_le_sub_right h₁₂ _)

theorem fetchWith_hit (key : String) (fb : String → JsonVal) (c : Cache)
    (now : Time) (o : RemoteOutcome) (h : is_cache_valid c now key = true) :
    fetchWith key fb c now o =
      { value := cacheGet c key, cache := c, liveCalls := 0 } := by
  simp [fetchWith, h]

theorem fetchWith_netError (key : String) (fb : String → JsonVal) (c : Cache)
    (now : Time) (msg : String) (h : is_cache_valid c now key = false) :
    fetchWith key fb c now (.netError msg) =
      { value := fb msg, cache := c, liveCalls := 1 } := by
  simp [fetchWith, h]

theorem fetchWith_badBody (key : String) (fb : String → JsonVal) (c : Cache)
    (now : Time) (st : Nat) (msg : String)
    (h : is_cache_valid c now key = false) :
    fetchWith key fb c now (.response st (.error msg)) =
      { value := fb msg, cache := c, liveCalls := 1 } := by
  simp [fetchWith, h]

theorem fetchWith_ok (key : String) (fb : String → JsonVal) (c : Cache)
    (now : Time) (st : Nat) (d : JsonVal)
    (h : is_cache_valid c now key = false) :
    fetchWith key fb c now (.response st (.ok d)) =
      { value := d, cache := cache_data c key now d, liveCalls := 1 } := by
  simp [fetchWith, h]

theorem fetchWith_miss_value (key : String) (fb : String → JsonVal) (c : Cache)
    (now : Time) (o : RemoteOutcome) (h : is_cache_valid c now key = false) :
    (fetchWith key fb c now o).value = liveOr o fb := by
  cases o with
  | netError msg => rw [fetchWith_netError key fb c now msg h]; rfl
  | response st body =>
    cases body with
    | error msg => rw [fetchWith_badBody key fb c now st msg h]; rfl
    | ok d => rw [fetchWith_ok key fb c now st d h]; rfl

theorem fetchWith_cache_frame (key : String) (fb : String → JsonVal) (c : Cache)
    (now : Time) (o : RemoteOutcome) (k' : String) (hne : key ≠ k') :
    cacheLookup (fetchWith key fb c now o).cache k' = cacheLookup c k' := by
  by_cases h : is_cache_valid c now key
  · rw [fetchWith_hit key fb c now o h]
  · rw [Bool.not_eq_true] at h
    cases o with
    | netError msg => rw [fetchWith_netError key fb c now msg h]
    | response st body =>
      cases body with
      | error msg => rw [fetchWith_badBody key fb c now st msg h]
      | ok d =>
        rw [fetchWith_ok key fb c now st d h]
        exact cacheLookup_cache_data_of_ne c key k' now d hne

theorem fetchWith_cache_keeps (key : String) (fb : String → JsonVal) (c : Cache)
    (now : Time) (o : RemoteOutcome) (k' : String) (e : CacheEntry)
    (h : cacheLookup c k' = some e) :
    (cacheLookup (fetchWith key fb c now o).cache k').isSome = true := by
  by_cases hv : is_cache_valid c now key
  · rw [fetchWith_hit key fb c now o hv, h]; rfl
  · rw [Bool.not_eq_true] at hv
    cases o with
    | netError msg => rw [fetchWith_netError key fb c now msg hv, h]; rfl
    | response st body =>
      cases body with
      | error msg => rw [fetchWith_badBody key fb c now st msg hv, h]; rfl
      | ok d =>
        rw [fetchWith_ok key fb c now st d hv]
        by_cases hk : key = k'
        · subst hk
          rw [cacheLookup_cache_data_self c key now d]; rfl
        · rw [cacheLookup_cache_data_of_ne c key k' now d hk, h]; rfl

theorem fetchS_eq (s : Source) (c : Cache) (now : Time) (p : FetchParams)
    (o : RemoteOutcome) :
    fetchS s c now p o = fetchWith (sourceKey s p) (sourceFallback s) c now o := by
  cases s <;> rfl

/-! Concrete inputs shared by witnesses and counterexamples. -/

/-- The fetch parameters of a Tuscany request: region id and the catalog
coordinates. -/
def tuscanyParams : FetchParams :=
  { region := "Tuscany", lat := ⟨437711, 4⟩, lon := ⟨112486, 4⟩ }

/-- A JSON body a failing server might return together with a 500 status. -/
def garbagePayload : JsonVal := .obj [("detail", .str "Internal Server Error")]

/-- Claim C1: for every source fetcher (sustainability, practices, market
prices, weather) and every input — any cache state, instant and remote
outcome, including network errors and unparsable bodies — the fetch returns
a value: the previously cached payload, the parsed live payload, or that
source's fallback.  No error propagates to the caller. -/
theorem fetch_always_returns_value (s : Source) (c : Cache) (now : Time)
    (p : FetchParams) (o : RemoteOutcome) :
    (fetchS s c now p o).value = cacheGet c (sourceKey s p)
  ∨ (∃ st d, o = .response st (.ok d) ∧ (fetchS s c now p o).value = d)
  ∨ (∃ msg, (fetchS s c now p o).value = sourceFallback s msg) := by
  rw [fetchS_eq]
  by_cases h : is_cache_valid c now (sourceKey s p)
  · left
    rw [fetchWith_hit _ _ _ _ o h]
  · rw [Bool.not_eq_true] at h
    cases o with
    | netError msg =>
      right; right
      exact ⟨msg, by rw [fetchWith_netError _ _ _ _ _ h]⟩
    | response st body =>
      cases body with
      | error msg =>
        right; right
        exact ⟨msg, by rw [fetchWith_badBody _ _ _ _ _ _ h]⟩
      | ok d =>
        right; left
        exact ⟨st, d, rfl, by rw [fetchWith_ok _ _ _ _ _ _ h]⟩

/-- Claim C3: for every source and key, when the key is not fresh beforehand
(so a live attempt happens), a failed fetch leaves the key non-fresh (the
fallback is never written to the cache), while a successful fetch makes it
fresh immediately, and freshness at a later instant t holds exactly while
t - now stays below the TTL. -/
theorem cache_only_stores_live_success (s : Source) (p : FetchParams)
    (c : Cache) (now : Time) (o : RemoteOutcome)
    (hmiss : is_cache_valid c now (sourceKey s p) = false) :
    (o.isFailure = true →
       is_cache_valid (fetchS s c now p o).cache now (sourceKey s p) = false)
  ∧ (o.isFailure = false →
       is_cache_valid (fetchS s c now p o).cache now (sourceKey s p) = true
     ∧ ∀ t : Time, is_cache_valid (fetchS s c now p o).cache t (sourceKey s p)
         = decide (t - now < cacheDuration)) := by
  rw [fetchS_eq]
  cases o with
  | netError msg =>
    rw [fetchWith_netError _ _ _ _ _ hmiss]
    exact ⟨fun _ => hmiss, fun h => Bool.noConfusion h⟩
  | response st body =>
    cases body with
    | error msg =>
      rw [fetchWith_badBody _ _ _ _ _ _ hmiss]
      exact ⟨fun _ => hmiss, fun h => Bool.noConfusion h⟩
    | ok d =>
      rw [fetchWith_ok _ _ _ _ _ _ hmiss]
      have hsome := cacheLookup_cache_data_self c (sourceKey s p) now d
      refine ⟨fun h => Bool.noConfusion h, fun _ => ⟨?_, fun t => ?_⟩⟩
      · rw [is_cache_valid_lookup_some _ _ _ _ hsome]
        simp [cacheDuration]
      · rw [is_cache_valid_lookup_some _ _ _ _ hsome]

/-- Claim C3 witness: on the empty cache the market-prices key is not fresh,
and after a failed fetch it is still not fresh. -/
theorem cache_only_stores_live_success_witness :
    is_cache_valid [] 0 (sourceKey .marketPrices tuscanyParams) = false
  ∧ (RemoteOutcome.isFailure (.netError "connection refused") = true →
      is_cache_valid
        (fetchS .marketPrices [] 0 tuscanyParams (.netError "connection refused")).cache
        0 (sourceKey .marketPrices tuscanyParams) = false) :=
  ⟨rfl, (cache_only_stores_live_success .marketPrices tuscanyParams [] 0
          (.netError "connection refused") rfl).1⟩

/-- Claim C4 counterexample: a non-success HTTP response (status 500) whose
body happens to be valid JSON is not treated as a failure by
`get_market_prices`: the parsed body — not the fallback — is returned, and
it is cached. -/
theorem status_code_ignored_payload_cached :
    (get_market_prices [] 0 (.response 500 (.ok garbagePayload))).value ≠ pricesFallback
  ∧ is_cache_valid (get_market_prices [] 0 (.response 500 (.ok garbagePayload))).cache
      0 "prices" = true := by
  constructor
  · have hv : (get_market_prices [] 0 (.response 500 (.ok garbagePayload))).value
        = garbagePayload := rfl
    rw [hv]
    simp [garbagePayload, pricesFallback]
  · rfl

/-- Claim C4 (amended): for every source fetcher, any raised failure of the
remote interaction — a network error, or a body that cannot be parsed — is
treated identically: the fetcher returns the source's fallback built from
the caught exception's message and leaves the cache untouched.  The HTTP
status code is never inspected, so a non-success response with a JSON body
is treated as success. -/
theorem raised_failures_fall_back_uncached (s : Source) (p : FetchParams)
    (c : Cache) (now : Time) (msg : String) (st : Nat)
    (hmiss : is_cache_valid c now (sourceKey s p) = false) :
    (fetchS s c now p (.netError msg)).value = sourceFallback s msg
  ∧ (fetchS s c now p (.netError msg)).cache = c
  ∧ (fetchS s c now p (.response st (.error msg))).value = sourceFallback s msg
  ∧ (fetchS s c now p (.response st (.error msg))).cache = c := by
  rw [fetchS_eq, fetchS_eq]
  rw [fetchWith_netError _ _ _ _ _ hmiss, fetchWith_badBody _ _ _ _ _ _ hmiss]
  exact ⟨rfl, rfl, rfl, rfl⟩

/-- Claim C4 (amended) witness: the weather fetcher at a concrete timed-out
request returns its fallback carrying the exception message and leaves the
empty cache empty. -/
theorem raised_failures_fall_back_uncached_witness :
    is_cache_valid [] 7 (sourceKey .weather tuscanyParams) = false
  ∧ ((fetchS .weather [] 7 tuscanyParams (.netError "timeout")).value
        = sourceFallback .weather "timeout"
    ∧ (fetchS .weather [] 7 tuscanyParams (.netError "timeout")).cache = []
    ∧ (fetchS .weather [] 7 tuscanyParams (.response 502 (.error "timeout"))).value
        = sourceFallback .weather "timeout"
    ∧ (fetchS .weather [] 7 tuscanyParams (.response 502 (.error "timeout"))).cache = []) :=
  ⟨rfl, raised_failures_fall_back_uncached .weather tuscanyParams [] 7 "timeout" 502 rfl⟩

/-- Claim C6: for every source, if the first fetch went live (key not fresh)
and succeeded, a second fetch with the same parameters within the TTL window
issues zero additional live calls and returns the cached value; if the first
fetch fell back, the second call issues a live call again. -/
theorem cache_hit_idempotence (s : Source) (p : FetchParams) (c : Cache)
    (now₁ now₂ : Time) (o₁ o₂ : RemoteOutcome)
    (hmiss : is_cache_valid c now₁ (sourceKey s p) = false)
    (h₁₂ : now₁ ≤ now₂) (httl : now₂ - now₁ < cacheDuration) :
    (∀ st d, o₁ = .response st (.ok d) →
        (fetchS s (fetchS s c now₁ p o₁).cache now₂ p o₂).liveCalls = 0
      ∧ (fetchS s (fetchS s c now₁ p o₁).cache now₂ p o₂).value = d)
  ∧ (o₁.isFailure = true →
        (fetchS s (fetchS s c now₁ p o₁).cache now₂ p o₂).liveCalls = 1) := by
  constructor
  · rintro st d rfl
    rw [fetchS_eq, fetchS_eq]
    rw [fetchWith_ok _ _ _ _ _ _ hmiss]
    have hsome := cacheLookup_cache_data_self c (sourceKey s p) now₁ d
    have hvalid : is_cache_valid (cache_data c (sourceKey s p) now₁ d) now₂
        (sourceKey s p) = true := by
      rw [is_cache_valid_lookup_some _ _ _ _ hsome]
      simpa using httl
    rw [fetchWith_hit _ _ _ _ o₂ hvalid]
    refine ⟨rfl, ?_⟩
    show cacheGet _ _ = d
    unfold cacheGet
    rw [hsome]
  · intro hfail
    have hcache : (fetchS s c now₁ p o₁).cache = c := by
      rw [fetchS_eq]
      cases o₁ with
      | netError msg => rw [fetchWith_netError _ _ _ _ _ hmiss]
      | response st body =>
        cases body with
        | error msg => rw [fetchWith_badBody _ _ _ _ _ _ hmiss]
        | ok d => exact Bool.noConfusion hfail
    rw [hcache, fetchS_eq]
    have hmiss₂ := is_cache_valid_stale_mono c (sourceKey s p) now₁ now₂ h₁₂ hmiss
    cases o₂ with
    | netError m => rw [fetchWith_netError _ _ _ _ _ hmiss₂]
    | response st₂ b₂ =>
      cases b₂ with
      | error m => rw [fetchWith_badBody _ _ _ _ _ _ hmiss₂]
      | ok d₂ => rw [fetchWith_ok _ _ _ _ _ _ hmiss₂]

/-- Claim C6 witness: a first successful sustainability fetch at time 0
followed by a second fetch at time 10 (within the 24h TTL): the second call
is a cache hit with zero live calls returning the first payload, even though
the environment would answer it with a network error. -/
theorem cache_hit_idempotence_witness :
    is_cache_valid [] 0 (sourceKey .sustainability tuscanyParams) = false
  ∧ (0 : Time) ≤ 10
  ∧ (10 : Time) - 0 < cacheDuration
  ∧ ((fetchS .sustainability
        (fetchS .sustainability [] 0 tuscanyParams (.response 200 (.ok (.str "live")))).cache
        10 tuscanyParams (.netError "down")).liveCalls = 0
    ∧ (fetchS .sustainability
        (fetchS .sustainability [] 0 tuscanyParams (.response 200 (.ok (.str "live")))).cache
        10 tuscanyParams (.netError "down")).value = .str "live") :=
  ⟨rfl, by decide, by decide,
   (cache_hit_idempotence .sustainability tuscanyParams [] 0 10
     (.response 200 (.ok (.str "live"))) (.netError "down") rfl (by decide) (by decide)).1
     200 (.str "live") rfl⟩

/-- Claim C7: freshness is false for an absent key, and for a present key it
holds exactly when the elapsed time since the entry was stored is less than
the fixed TTL of 24 hours (here in seconds). -/
theorem is_cache_valid_semantics (c : Cache) (now : Time) (k : String) :
    cacheDuration = 24 * 60 * 60
  ∧ (cacheLookup c k = none → is_cache_valid c now k = false)
  ∧ (∀ e : CacheEntry, cacheLookup c k = some e →
       (is_cache_valid c now k = true ↔ now - e.timestamp < cacheDuration)) := by
  refine ⟨rfl, fun h => is_cache_valid_of_lookup_none c now k h, fun e h => ?_⟩
  rw [is_cache_valid_lookup_some c now k e h]
  simp

/-- Claim C7 witness: a concrete one-entry cache stored at time 5, queried at
time 10. -/
theorem is_cache_valid_semantics_witness :
    cacheLookup [("k", { timestamp := 5, data := JsonVal.null })] "k"
      = some { timestamp := 5, data := JsonVal.null }
  ∧ (is_cache_valid [("k", { timestamp := 5, data := JsonVal.null })] 10 "k" = true
      ↔ 10 - 5 < cacheDuration) :=
  ⟨rfl, (is_cache_valid_semantics [("k", { timestamp := 5, data := JsonVal.null })] 10 "k").2.2
          { timestamp := 5, data := JsonVal.null } rfl⟩

/-- Claim C10: every fetch call touches at most the cache entry under its own
source-and-parameter key — lookups under every other key are unchanged — and
no entry is ever removed: a key present before the fetch is still present
afterwards. -/
theorem fetch_frame_property (s : Source) (c : Cache) (now : Time)
    (p : FetchParams) (o : RemoteOutcome) :
    (∀ k : String, k ≠ sourceKey s p →
       cacheLookup (fetchS s c now p o).cache k = cacheLookup c k)
  ∧ (∀ (k : String) (e : CacheEntry), cacheLookup c k = some e →
       (cacheLookup (fetchS s c now p o).cache k).isSome = true) := by
  rw [fetchS_eq]
  exact ⟨fun k hk => fetchWith_cache_frame _ _ c now o k (Ne.symm hk),
         fun k e he => fetchWith_cache_keeps _ _ c now o k e he⟩

/-- Claim C10 witness: a successful sustainability fetch leaves the lookup of
an unrelated key unchanged. -/
theorem fetch_frame_property_witness :
    "other" ≠ sourceKey .sustainability tuscanyParams
  ∧ cacheLookup
      (fetchS .sustainability [] 0 tuscanyParams (.response 200 (.ok (.str "live")))).cache
      "other" = cacheLookup [] "other" :=
  ⟨by decide,
   (fetch_frame_property .sustainability [] 0 tuscanyParams
      (.response 200 (.ok (.str "live")))).1 "other" (by decide)⟩

/-! The aggregation step. -/

theorem aggregate_live_or_fallback (nm : String) (rd : RegionData) (now : Time)
    (w : WorldOutcomes)
    (h1 : "fsdn_" ++ nm ≠ "prices")
    (h2 : "fsdn_" ++ nm
            ≠ "weather_" ++ decStr rd.coordinates.1 ++ "_" ++ decStr rd.coordinates.2)
    (h3 : "prices"
            ≠ "weather_" ++ decStr rd.coordinates.1 ++ "_" ++ decStr rd.coordinates.2)
    (h4 : "fsdn_" ++ nm ≠ "fast_" ++ nm)
    (h5 : "prices" ≠ "fast_" ++ nm)
    (h6 : "weather_" ++ decStr rd.coordinates.1 ++ "_" ++ decStr rd.coordinates.2
            ≠ "fast_" ++ nm) :
    (aggregate nm rd now w).1.sustainability_data = liveOr w.fsdn (fun _ => fsdnFallback)
  ∧ (aggregate nm rd now w).1.market_data = liveOr w.prices (fun _ => pricesFallback)
  ∧ (aggregate nm rd now w).1.weather_data = liveOr w.weather weatherFallback
  ∧ cacheLookup (aggregate nm rd now w).2 ("fast_" ++ nm) = none := by
  have e1 : (aggregate nm rd now w).1.sustainability_data
      = (get_fsdn_data [] now nm w.fsdn).value := rfl
  have e2 : (aggregate nm rd now w).1.market_data
      = (get_market_prices (get_fsdn_data [] now nm w.fsdn).cache now w.prices).value := rfl
  have e3 : (aggregate nm rd now w).1.weather_data
      = (get_weather_data
          (get_market_prices (get_fsdn_data [] now nm w.fsdn).cache now w.prices).cache
          now rd.coordinates.1 rd.coordinates.2 w.weather).value := rfl
  have e4 : (aggregate nm rd now w).2
      = (get_weather_data
          (get_market_prices (get_fsdn_data [] now nm w.fsdn).cache now w.prices).cache
          now rd.coordinates.1 rd.coordinates.2 w.weather).cache := rfl
  have l1 : cacheLookup (get_fsdn_data [] now nm w.fsdn).cache "prices" = none :=
    (fetchWith_cache_frame ("fsdn_" ++ nm) (fun _ => fsdnFallback) [] now w.fsdn
      "prices" h1).trans rfl
  have l2 : cacheLookup
      (get_market_prices (get_fsdn_data [] now nm w.fsdn).cache now w.prices).cache
      ("weather_" ++ decStr rd.coordinates.1 ++ "_" ++ decStr rd.coordinates.2) = none :=
    (fetchWith_cache_frame "prices" (fun _ => pricesFallback)
        (get_fsdn_data [] now nm w.fsdn).cache now w.prices _ h3).trans
      ((fetchWith_cache_frame ("fsdn_" ++ nm) (fun _ => fsdnFallback) [] now w.fsdn
        _ h2).trans rfl)
  have l3 : cacheLookup
      (get_weather_data
        (get_market_prices (get_fsdn_data [] now nm w.fsdn).cache now w.prices).cache
        now rd.coordinates.1 rd.coordinates.2 w.weather).cache ("fast_" ++ nm) = none :=
    (fetchWith_cache_frame
        ("weather_" ++ decStr rd.coordinates.1 ++ "_" ++ decStr rd.coordinates.2)
        weatherFallback
        (get_market_prices (get_fsdn_data [] now nm w.fsdn).cache now w.prices).cache
        now w.weather _ h6).trans
      ((fetchWith_cache_frame "prices" (fun _ => pricesFallback)
          (get_fsdn_data [] now nm w.fsdn).cache now w.prices _ h5).trans
        ((fetchWith_cache_frame ("fsdn_" ++ nm) (fun _ => fsdnFallback) [] now w.fsdn
          _ h4).trans rfl))
  refine ⟨?_, ?_, ?_, ?_⟩
  · rw [e1]
    exact fetchWith_miss_value _ _ _ _ _ (is_cache_valid_nil now _)
  · rw [e2]
    exact fetchWith_miss_value _ _ _ _ _ (is_cache_valid_of_lookup_none _ _ _ l1)
  · rw [e3]
    exact fetchWith_miss_value _ _ _ _ _ (is_cache_valid_of_lookup_none _ _ _ l2)
  · rw [e4]
    exact l3

/-- The environment answers every source's remote call with a parsed 200
response carrying a distinct payload. -/
def allSuccess : WorldOutcomes :=
  { fsdn := .response 200 (.ok (.str "liveFsdn"))
  , fast := .response 200 (.ok (.str "liveFast"))
  , prices := .response 200 (.ok (.str "livePrices"))
  , weather := .response 200 (.ok (.str "liveWeather")) }

/-- Every source's remote call raises a network error. -/
def allFail : WorldOutcomes :=
  { fsdn := .netError "network unreachable"
  , fast := .netError "network unreachable"
  , prices := .netError "network unreachable"
  , weather := .netError "network unreachable" }

/-- Claim C2 counterexample: on a Tuscany request in which every remote call
would succeed, the aggregation caches the sustainability, market-prices and
weather payloads but the practices key is absent afterwards — the practices
fetcher (`get_fast_platform_data`) is never invoked by `main`, so the claim
that all four fetchers are invoked and the snapshot carries four fields
fails. -/
theorem main_skips_practices_fetcher :
    (cacheLookup (aggregate "Tuscany" tuscanyRegion 0 allSuccess).2
        ("fsdn_" ++ "Tuscany")).isSome = true
  ∧ (cacheLookup (aggregate "Tuscany" tuscanyRegion 0 allSuccess).2 "prices").isSome = true
  ∧ (cacheLookup (aggregate "Tuscany" tuscanyRegion 0 allSuccess).2
      ("weather_" ++ decStr tuscanyRegion.coordinates.1 ++ "_"
        ++ decStr tuscanyRegion.coordinates.2)).isSome = true
  ∧ cacheLookup (aggregate "Tuscany" tuscanyRegion 0 allSuccess).2
      ("fast_" ++ "Tuscany") = none
  ∧ (aggregate "Tuscany" tuscanyRegion 0 allSuccess).1.sustainability_data
      = .str "liveFsdn" :=
  ⟨rfl, rfl, rfl, rfl, rfl⟩

/-- Claim C2 (amended): for every catalog request, the aggregation step
invokes three of the four source fetchers — sustainability, market prices
and weather; the practices fetcher is never invoked — and every field of the
resulting snapshot is populated with either the live payload or that
source's fallback, regardless of how many fetches failed. -/
theorem aggregate_populates_three_fields (now : Time) (w : WorldOutcomes) :
    ((aggregate "Tuscany" tuscanyRegion now w).1.sustainability_data
        = liveOr w.fsdn (fun _ => fsdnFallback)
    ∧ (aggregate "Tuscany" tuscanyRegion now w).1.market_data
        = liveOr w.prices (fun _ => pricesFallback)
    ∧ (aggregate "Tuscany" tuscanyRegion now w).1.weather_data
        = liveOr w.weather weatherFallback
    ∧ cacheLookup (aggregate "Tuscany" tuscanyRegion now w).2
        ("fast_" ++ "Tuscany") = none)
  ∧ ((aggregate "Bavaria" bavariaRegion now w).1.sustainability_data
        = liveOr w.fsdn (fun _ => fsdnFallback)
    ∧ (aggregate "Bavaria" bavariaRegion now w).1.market_data
        = liveOr w.prices (fun _ => pricesFallback)
    ∧ (aggregate "Bavaria" bavariaRegion now w).1.weather_data
        = liveOr w.weather weatherFallback
    ∧ cacheLookup (aggregate "Bavaria" bavariaRegion now w).2
        ("fast_" ++ "Bavaria") = none) :=
  ⟨aggregate_live_or_fallback "Tuscany" tuscanyRegion now w (by decide) (by decide)
      (by decide) (by decide) (by decide) (by decide),
   aggregate_live_or_fallback "Bavaria" bavariaRegion now w (by decide) (by decide)
      (by decide) (by decide) (by decide) (by decide)⟩

/-- Claim C5 (code bug): with all sources failing, the prompt built from the
aggregated snapshot shows "Unknown" not only for the weather temp and
humidity but also for all three sustainability fields: the fsdn fallback
nests its qualitative strings (medium, high, medium — last three conjuncts)
under the key "sustainability_metrics", while the prompt reads soil_health,
water_efficiency and biodiversity at the top level of the dict, so the
fallback's qualitative strings never reach the prompt. -/
theorem allfail_prompt_shows_unknown_sustainability :
    (build_prompt tuscanyRegion
        (aggregate "Tuscany" tuscanyRegion 0 allFail).1.sustainability_data
        (aggregate "Tuscany" tuscanyRegion 0 allFail).1.market_data
        (aggregate "Tuscany" tuscanyRegion 0 allFail).1.weather_data).temp = "Unknown"
  ∧ (build_prompt tuscanyRegion
        (aggregate "Tuscany" tuscanyRegion 0 allFail).1.sustainability_data
        (aggregate "Tuscany" tuscanyRegion 0 allFail).1.market_data
        (aggregate "Tuscany" tuscanyRegion 0 allFail).1.weather_data).humidity = "Unknown"
  ∧ (build_prompt tuscanyRegion
        (aggregate "Tuscany" tuscanyRegion 0 allFail).1.sustainability_data
        (aggregate "Tuscany" tuscanyRegion 0 allFail).1.market_data
        (aggregate "Tuscany" tuscanyRegion 0 allFail).1.weather_data).soil_health = "Unknown"
  ∧ (build_prompt tuscanyRegion
        (aggregate "Tuscany" tuscanyRegion 0 allFail).1.sustainability_data
        (aggregate "Tuscany" tuscanyRegion 0 allFail).1.market_data
        (aggregate "Tuscany" tuscanyRegion 0 allFail).1.weather_data).water_efficiency
      = "Unknown"
  ∧ (build_prompt tuscanyRegion
        (aggregate "Tuscany" tuscanyRegion 0 allFail).1.sustainability_data
        (aggregate "Tuscany" tuscanyRegion 0 allFail).1.market_data
        (aggregate "Tuscany" tuscanyRegion 0 allFail).1.weather_data).biodiversity
      = "Unknown"
  ∧ (fsdnFallback.getD "sustainability_metrics" .null).getD "soil_health" .null
      = .str "medium"
  ∧ (fsdnFallback.getD "sustainability_metrics" .null).getD "water_efficiency" .null
      = .str "high"
  ∧ (fsdnFallback.getD "sustainability_metrics" .null).getD "biodiversity" .null
      = .str "medium" :=
  ⟨rfl, rfl, rfl, rfl, rfl, rfl, rfl, rfl⟩

/-- Claim C8: when the single generation call fails, `get_recommendations`
returns None with no recommendation text and no retry (the one outcome is
consumed once); a successful call returns its content, so the failure value
None is distinguishable from a successful empty recommendation. -/
theorem generation_failure_returns_none (rd : RegionData) (sd md wd : JsonVal)
    (msg content : String) :
    get_recommendations rd sd md wd (.genError msg) = none
  ∧ get_recommendations rd sd md wd (.genSuccess content) = some content
  ∧ get_recommendations rd sd md wd (.genSuccess "") ≠ none :=
  ⟨rfl, rfl, fun h => Option.noConfusion h⟩

/-- Claim C8 witness: concrete failing and empty-success generation calls on
the all-fallback snapshot. -/
theorem generation_failure_returns_none_witness :
    get_recommendations tuscanyRegion fsdnFallback pricesFallback
      (weatherFallback "e") (.genError "rate limited") = none
  ∧ get_recommendations tuscanyRegion fsdnFallback pricesFallback
      (weatherFallback "e") (.genSuccess "") = some ""
  ∧ get_recommendations tuscanyRegion fsdnFallback pricesFallback
      (weatherFallback "e") (.genSuccess "") ≠ none :=
  generation_failure_returns_none tuscanyRegion fsdnFallback pricesFallback
    (weatherFallback "e") "rate limited" ""

/-- Claim C9 counterexample: two weather requests whose latitudes agree after
rounding to the catalog's four decimal places (43.7711 versus 43.77111)
produce different cache keys: the key interpolates the coordinates exactly
as passed, with no rounding. -/
theorem weather_key_not_rounded :
    roundTo 4 ⟨4377111, 5⟩ = roundTo 4 ⟨437711, 4⟩
  ∧ sourceKey .weather { region := "Tuscany", lat := ⟨4377111, 5⟩, lon := ⟨112486, 4⟩ }
      ≠ sourceKey .weather { region := "Tuscany", lat := ⟨437711, 4⟩, lon := ⟨112486, 4⟩ } := by
  exact ⟨by decide, by decide⟩

/-- Claim C9 (amended): cache keys are a deterministic function of the source
name and the exact request parameters — the region identifier for the
region-based sources, the constant prices key for market prices, and for
weather the lat/lon pair exactly as passed (unrounded): two requests with
equal parameters always produce the same key. -/
theorem cache_key_deterministic (s : Source) (p₁ p₂ : FetchParams)
    (hr : p₁.region = p₂.region) (hlat : p₁.lat = p₂.lat)
    (hlon : p₁.lon = p₂.lon) :
    sourceKey s p₁ = sourceKey s p₂
  ∧ sourceKey .weather p₁ = "weather_" ++ decStr p₁.lat ++ "_" ++ decStr p₁.lon := by
  refine ⟨?_, rfl⟩
  cases s <;> simp [sourceKey, hr, hlat, hlon]

/-- Claim C9 (amended) witness: the Tuscany weather request key. -/
theorem cache_key_deterministic_witness :
    (tuscanyParams.region = tuscanyParams.region
      ∧ tuscanyParams.lat = tuscanyParams.lat
      ∧ tuscanyParams.lon = tuscanyParams.lon)
  ∧ (sourceKey .weather tuscanyParams = sourceKey .weather tuscanyParams
      ∧ sourceKey .weather tuscanyParams
          = "weather_" ++ decStr tuscanyParams.lat ++ "_" ++ decStr tuscanyParams.lon) :=
  ⟨⟨rfl, rfl, rfl⟩, cache_key_deterministic .weather tuscanyParams tuscanyParams rfl rfl rfl⟩
